import Mathlib

/-!
Verification of the pyatecc driver's protocol layer (`pyatecc/atecc.py`).

The definitions below are a shallow embedding of the pure computations of
the driver: bytes are `Nat` values in `0..255`, byte strings are `List Nat`,
Python integers are `Int` where sign matters, and fallible paths return
`Except String`.  Bus traffic is modelled by passing the raw bytes a read
transaction would deliver (or, for the polling loop, a map from attempt
index to that attempt's outcome) as explicit arguments.
-/

set_option maxRecDepth 16000

namespace PyAtecc

/-! ## Checksum (`ATECC._at_crc`, atecc.py lines 478-497) -/

/-- One iteration of the inner `for shift in range(8)` loop of `_at_crc`:
`data_bit` is bit `shift` of byte `b`, `crc_bit` is bit 15 of the pre-shift
accumulator, the accumulator is shifted left and masked to 16 bits, and the
polynomial `0x8005` is XORed in (then masked again) when the bits differ. -/
def at_crc_bit (b shift crc : Nat) : Nat :=
  let data_bit : Nat := if b &&& (1 <<< shift) ≠ 0 then 1 else 0
  let crc_bit : Nat := (crc >>> 15) &&& 1
  let crc1 : Nat := (crc <<< 1) &&& 0xFFFF
  if data_bit ≠ crc_bit then (crc1 ^^^ 0x8005) &&& 0xFFFF else crc1

/-- One iteration of the outer `for b in data` loop of `_at_crc`. -/
def at_crc_byte (crc b : Nat) : Nat :=
  (List.range 8).foldl (fun c shift => at_crc_bit b shift c) crc

/-- Embedding of `ATECC._at_crc(data)` with the `length` parameter left at its default
(`None`), which is how every call site in the driver invokes it: `length`
is then `len(data)`, and the early `return 0` fires exactly on empty input. -/
def at_crc (data : List Nat) : Nat :=
  if data = [] then 0
  else (data.foldl at_crc_byte 0) &&& 0xFFFF

/-! ## Reference bit-serial checksum, stated from the specification's words
(spec §4.1): accumulator starts at 0; for each byte and each of its 8 bits
least-significant first, shift the 16-bit accumulator left by one (masked to
16 bits) and XOR in `0x8005` exactly when bit 15 of the pre-shift
accumulator differs from the current data bit. -/

/-- Reference step for one data bit, following the spec's description. -/
def crcSpecStep (b crc shift : Nat) : Nat :=
  let dataBit : Nat := (b >>> shift) &&& 1
  let crcBit : Nat := (crc >>> 15) &&& 1
  let shifted : Nat := (crc <<< 1) &&& 0xFFFF
  if crcBit ≠ dataBit then shifted ^^^ 0x8005 else shifted

/-- Reference processing of one byte, least-significant bit first. -/
def crcSpecByte (crc b : Nat) : Nat :=
  (List.range 8).foldl (crcSpecStep b) crc

/-- The reference checksum of the spec: fold the reference step over all
bytes starting from accumulator 0 (empty input therefore yields 0). -/
def crcSpec (data : List Nat) : Nat :=
  data.foldl crcSpecByte 0

/-! ### Helper lemmas for the checksum equivalence -/

lemma dataBit_eq (b s : Nat) :
    (if b &&& (1 <<< s) ≠ 0 then (1 : Nat) else 0) = (b >>> s) &&& 1 := by
  rw [Nat.one_shiftLeft, Nat.and_two_pow, Nat.and_one_is_mod,
    Nat.shiftRight_eq_div_pow, Nat.testBit_to_div_mod]
  rcases Nat.mod_two_eq_zero_or_one (b / 2 ^ s) with h | h <;>
    simp [h, Nat.pos_iff_ne_zero, pow_ne_zero]

lemma mask16_eq_of_lt {x : Nat} (h : x < 65536) : x &&& 0xFFFF = x := by
  have h2 : (0xFFFF : Nat) = 2 ^ 16 - 1 := by norm_num
  have h3 : x < 2 ^ 16 := by omega
  rw [h2]
  exact Nat.and_pow_two_sub_one_of_lt_two_pow h3

lemma at_crc_bit_le (b s crc : Nat) : at_crc_bit b s crc ≤ 0xFFFF := by
  simp only [at_crc_bit]
  split <;> split <;> exact Nat.and_le_right

lemma at_crc_bit_eq (b s crc : Nat) : at_crc_bit b s crc = crcSpecStep b crc s := by
  simp only [at_crc_bit, crcSpecStep, dataBit_eq]
  by_cases h : ((b >>> s) &&& 1) = ((crc >>> 15) &&& 1)
  · simp [h]
  · rw [if_pos h, if_pos (Ne.symm h)]
    have h1 : ((crc <<< 1) &&& 0xFFFF) < 2 ^ 16 := by
      have := Nat.and_le_right (n := crc <<< 1) (m := 0xFFFF)
      omega
    have h2 : (0x8005 : Nat) < 2 ^ 16 := by norm_num
    have h3 : ((crc <<< 1) &&& 0xFFFF) ^^^ 0x8005 < 65536 := by
      have := Nat.xor_lt_two_pow h1 h2
      omega
    exact mask16_eq_of_lt h3

lemma foldl_bits_eq (b : Nat) :
    ∀ (l : List Nat) (c : Nat),
      l.foldl (fun c shift => at_crc_bit b shift c) c = l.foldl (crcSpecStep b) c := by
  intro l c
  simp only [at_crc_bit_eq]

lemma at_crc_byte_eq (crc b : Nat) : at_crc_byte crc b = crcSpecByte crc b :=
  foldl_bits_eq b (List.range 8) crc

lemma at_crc_byte_le (crc b : Nat) : at_crc_byte crc b ≤ 0xFFFF := by
  have h8 : at_crc_byte crc b =
      at_crc_bit b 7 (at_crc_bit b 6 (at_crc_bit b 5 (at_crc_bit b 4
        (at_crc_bit b 3 (at_crc_bit b 2 (at_crc_bit b 1 (at_crc_bit b 0 crc))))))) := rfl
  rw [h8]
  exact at_crc_bit_le _ _ _

lemma foldl_bytes_eq :
    ∀ (data : List Nat) (crc : Nat),
      data.foldl at_crc_byte crc = data.foldl crcSpecByte crc := by
  intro data
  induction data with
  | nil => intro crc; rfl
  | cons b rest ih =>
    intro crc
    simp only [List.foldl_cons, at_crc_byte_eq]
    exact ih _

lemma foldl_bytes_le :
    ∀ (data : List Nat) (crc : Nat), data ≠ [] → data.foldl at_crc_byte crc ≤ 0xFFFF := by
  intro data
  induction data with
  | nil => intro crc h; exact absurd rfl h
  | cons b rest ih =>
    intro crc _
    rw [List.foldl_cons]
    cases rest with
    | nil => simpa using at_crc_byte_le crc b
    | cons c cs => exact ih _ (by simp)

/-- C1: `_at_crc` computes the chip's 16-bit checksum by the reference
bit-serial algorithm of the spec — starting from accumulator 0, for each
input byte and each of its 8 bits least-significant first, shift the 16-bit
accumulator left (masked to 16 bits) and XOR in `0x8005` exactly when bit 15
of the pre-shift accumulator differs from the data bit — and returns 0 for
empty input.  Determinism and freedom from side effects hold by construction:
`at_crc` is a pure function of its input. -/
theorem at_crc_matches_reference :
    (∀ data : List Nat, at_crc data = crcSpec data) ∧ at_crc [] = 0 := by
  constructor
  · intro data
    cases data with
    | nil => rfl
    | cons b rest =>
      unfold at_crc crcSpec
      rw [if_neg (by simp), ← foldl_bytes_eq]
      have hle := foldl_bytes_le (b :: rest) 0 (by simp)
      exact mask16_eq_of_lt (by omega)
  · rfl

/-! ## Command packet assembly (`ATECC._send_command`, atecc.py lines 423-456) -/

/-- The byte sequence `_send_command(opcode, param_1, param_2, data)` writes
to the bus: a `bytearray` of size `8 + len(data)` holding the word-address
marker `0x03`, the count byte `len(packet) - 1`, the opcode, `param_1`, the
low then high byte of `param_2`, the data bytes, and finally the checksum of
`packet[1:-2]` stored low byte first. -/
def sendCommandPacket (opcode param_1 param_2 : Nat) (data : List Nat) : List Nat :=
  let body : List Nat :=
    [7 + data.length, opcode, param_1, param_2 &&& 0xFF, param_2 >>> 8] ++ data
  let crc := at_crc body
  0x03 :: (body ++ [crc &&& 0xFF, crc >>> 8])

/-! ## Response validation (`ATECC._get_response`, atecc.py lines 470-476) -/

/-- The checksum-validation tail of `_get_response`, applied to the raw bytes
`response` a successful bus read delivered: the transmitted checksum is
`response[-2] | (response[-1] << 8)`, the recomputed checksum is
`_at_crc(response[0:-2])`, a mismatch raises `RuntimeError("CRC Mismatch")`,
and on success `response[1:-2]` is returned. -/
def getResponse (response : List Nat) : Except String (List Nat) :=
  let crc := response.getD (response.length - 2) 0 |||
    ((response.getD (response.length - 1) 0) <<< 8)
  let crc2 := at_crc (response.take (response.length - 2))
  if crc ≠ crc2 then .error "CRC Mismatch"
  else .ok ((response.drop 1).take (response.length - 3))

/-- Modelled from the spec (C3's wording): the same validation but with the
checksum recomputed over all bytes except the leading length byte and the
trailing two checksum bytes, i.e. over `response[1:-2]`. -/
def getResponseSpecCheck (response : List Nat) : Except String (List Nat) :=
  let crc := response.getD (response.length - 2) 0 |||
    ((response.getD (response.length - 1) 0) <<< 8)
  let crc2 := at_crc ((response.drop 1).take (response.length - 3))
  if crc ≠ crc2 then .error "CRC Mismatch"
  else .ok ((response.drop 1).take (response.length - 3))

lemma mask8_eq_mod (x : Nat) : x &&& 0xFF = x % 256 := by
  have h : (0xFF : Nat) = 2 ^ 8 - 1 := by norm_num
  rw [h, Nat.and_pow_two_sub_one_eq_mod]

lemma shift8_eq_div (x : Nat) : x >>> 8 = x / 256 := by
  rw [Nat.shiftRight_eq_div_pow]

/-- C2 counterexample: for the Info command with no data, the packet's
declared length byte is `7`, not `3 + len(data) + 2 = 5` as the claim's
formula states. -/
theorem send_command_count_byte_counterexample :
    (sendCommandPacket 0x30 0x00 0x00 []).getD 1 0 = 7 ∧
    3 + ([] : List Nat).length + 2 = 5 ∧ (7 : Nat) ≠ 5 := by decide

/-- C2 (amended): `_send_command` assembles the packet as word-address
marker `0x03`, length byte, opcode, param1, param2 low byte, param2 high
byte, the data bytes, then the checksum low byte and high byte, with the
checksum computed over the span from the length byte through the last data
byte; the declared length byte equals `1` (the count byte itself) `+ 4`
(opcode, param1 and the two param2 bytes) `+ len(data) + 2` (checksum) —
not `3 + len(data) + 2` as originally claimed. -/
theorem send_command_packet_layout :
    ∀ (opcode param_1 param_2 : Nat) (data : List Nat),
      opcode < 256 → param_1 < 256 → param_2 < 65536 →
      sendCommandPacket opcode param_1 param_2 data =
        0x03 ::
          (([1 + 4 + data.length + 2, opcode, param_1, param_2 % 256, param_2 / 256] ++ data)
            ++ [at_crc ([1 + 4 + data.length + 2, opcode, param_1, param_2 % 256,
                  param_2 / 256] ++ data) % 256,
                at_crc ([1 + 4 + data.length + 2, opcode, param_1, param_2 % 256,
                  param_2 / 256] ++ data) / 256]) ∧
      (sendCommandPacket opcode param_1 param_2 data).length = 8 + data.length := by
  intro opcode param_1 param_2 data _ _ _
  constructor
  · simp only [sendCommandPacket, mask8_eq_mod, shift8_eq_div]
    have h7 : 7 + data.length = 1 + 4 + data.length + 2 := by omega
    rw [h7]
  · simp only [sendCommandPacket, List.length_cons, List.length_append, List.length_cons,
      List.length_nil]
    omega

set_option maxRecDepth 8000 in
/-- Witness for C2 (amended) at the concrete input `opcode=0x30`,
`param_1=0`, `param_2=0x0102`, `data=[0xAA]`. -/
theorem send_command_packet_layout_witness :
    sendCommandPacket 0x30 0x00 0x0102 [0xAA] = [3, 8, 48, 0, 2, 1, 170, 198, 134] ∧
    (sendCommandPacket 0x30 0x00 0x0102 [0xAA]).length = 8 + [0xAA].length := by
  have h := send_command_packet_layout 0x30 0x00 0x0102 [0xAA]
    (by decide) (by decide) (by decide)
  exact ⟨h.1.trans (by decide), h.2⟩

lemma drop1_dropLast2 (l : List Nat) :
    (l.drop 1).dropLast.dropLast = (l.drop 1).take (l.length - 3) := by
  rw [List.dropLast_eq_take, List.dropLast_eq_take, List.take_take]
  congr 1
  simp only [List.length_take, List.length_drop]
  omega

/-- C3 counterexample: the raw response `[4, 0, 3, 64]` is accepted by
`_get_response` (its trailing checksum `0x4003` matches `_at_crc` of
`response[0:-2] = [4, 0]`, which INCLUDES the leading length byte), yet the
checksum recomputed as the claim says — over all bytes except the leading
length byte and the trailing two, i.e. over `[0]` — differs from the
transmitted checksum, so the claimed "rejects exactly on mismatch" rule
would have rejected it. -/
theorem get_response_crc_span_counterexample :
    getResponse [4, 0, 3, 64] = .ok [0] ∧
    getResponseSpecCheck [4, 0, 3, 64] = .error "CRC Mismatch" ∧
    at_crc (([4, 0, 3, 64].drop 1).take 1) ≠ (3 : Nat) ||| (64 <<< 8) :=
  ⟨rfl, rfl, by decide⟩

/-- C3 (amended): `_get_response` recomputes the checksum over all bytes of
the raw response except the trailing two checksum bytes (the leading length
byte INCLUDED, unlike the original claim), and raises a checksum-mismatch
error exactly when that value differs from the transmitted trailing
checksum (stored low byte first, then high byte); on success the returned
payload is the response stripped of its leading length byte and trailing
two checksum bytes. -/
theorem get_response_validation :
    ∀ response : List Nat, 3 ≤ response.length →
      (getResponse response = .ok ((response.drop 1).dropLast.dropLast) ↔
        response.getD (response.length - 2) 0 |||
            ((response.getD (response.length - 1) 0) <<< 8)
          = at_crc (response.take (response.length - 2))) ∧
      (getResponse response = .error "CRC Mismatch" ↔
        response.getD (response.length - 2) 0 |||
            ((response.getD (response.length - 1) 0) <<< 8)
          ≠ at_crc (response.take (response.length - 2))) := by
  intro response _
  by_cases h : response.getD (response.length - 2) 0 |||
      ((response.getD (response.length - 1) 0) <<< 8)
    = at_crc (response.take (response.length - 2))
  · have hok : getResponse response = .ok ((response.drop 1).dropLast.dropLast) := by
      simp only [getResponse]
      rw [if_neg (not_not_intro h), drop1_dropLast2]
    refine ⟨iff_of_true hok h, iff_of_false ?_ (not_not_intro h)⟩
    rw [hok]
    simp
  · have herr : getResponse response = .error "CRC Mismatch" := by
      simp only [getResponse]
      rw [if_pos h]
    refine ⟨iff_of_false ?_ h, iff_of_true herr h⟩
    rw [herr]
    simp

/-- Witness for C3 (amended) at the concrete accepted response
`[4, 0, 3, 64]`. -/
theorem get_response_validation_witness :
    3 ≤ ([4, 0, 3, 64] : List Nat).length ∧
    (getResponse [4, 0, 3, 64]
        = .ok ((([4, 0, 3, 64] : List Nat).drop 1).dropLast.dropLast) ↔
      ([4, 0, 3, 64] : List Nat).getD (([4, 0, 3, 64] : List Nat).length - 2) 0 |||
          ((([4, 0, 3, 64] : List Nat).getD (([4, 0, 3, 64] : List Nat).length - 1) 0) <<< 8)
        = at_crc (([4, 0, 3, 64] : List Nat).take (([4, 0, 3, 64] : List Nat).length - 2))) :=
  ⟨by decide, (get_response_validation [4, 0, 3, 64] (by decide)).1⟩

/-! ## Random number generation (`ATECC.random` / `ATECC._random`,
atecc.py lines 260-296)

`_random(r)` with the 16-byte buffer `random` hands it runs exactly one loop
iteration: it sends one Random command, reads the 32-byte response payload,
and replaces the buffer by the first `min(32, 16) = 16` bytes of that
payload.  `resp` below is the 32-byte payload `_get_response(32)` returned;
the `Bool` component records whether a chip transaction was issued. -/

/-- Embedding of `ATECC.random(rnd_min, rnd_max)`, with the chip's 32-byte random
response payload passed explicitly.  Mirrors the source line by line:
`rnd_min` is overwritten by 0 whenever `rnd_max` is truthy (nonzero), the
degenerate check `rnd_min >= rnd_max` then returns (the possibly
overwritten) `rnd_min` with no bus traffic, and otherwise the first 16
response bytes are summed, the (dead) absolute-value guard applied, and the
sum reduced modulo `delta = rnd_max - rnd_min` and shifted by `rnd_min`. -/
def atecc_random (rnd_min rnd_max : Int) (resp : List Nat) : Bool × Int :=
  let rnd_min := if rnd_max ≠ 0 then 0 else rnd_min
  if rnd_min ≥ rnd_max then (false, rnd_min)
  else
    let delta := rnd_max - rnd_min
    let r := resp.take 16
    let data : Int := r.foldl (fun (acc : Int) (b : Nat) => acc + (b : Int)) 0
    let data := if data < 0 then -data else data
    (true, data % delta + rnd_min)

/-- C4 counterexample: with any mocked 32-byte all-`0x01` response, both
`random(5, 5)` and `random(10, 3)` issue a chip transaction (the `Bool` is
`true`) and return `16 % rnd_max = 1`, not `rnd_min` without a bus
transaction as claimed: `rnd_min` is forced to 0 before the degenerate
`rnd_min >= rnd_max` check, so that check fails for any positive
`rnd_max`. -/
theorem random_degenerate_counterexample :
    atecc_random 5 5 (List.replicate 32 1) = (true, 1) ∧
    atecc_random 10 3 (List.replicate 32 1) = (true, 1) ∧
    ((true, (1 : Int)) ≠ (false, (5 : Int)) ∧ (true, (1 : Int)) ≠ (false, (10 : Int))) := by
  refine ⟨by decide, by decide, by decide⟩

/-- C4 (amended): `random(rnd_min, rnd_max)` with a nonzero `rnd_max`
forces `rnd_min` to 0 *before* the degenerate-range check, and it returns
the forced `rnd_min` unchanged without issuing any bus transaction exactly
when the forced `rnd_min >= rnd_max`; consequently `random(5, 5)` and
`random(10, 3)` (forced `rnd_min = 0 <` `rnd_max`) do issue a bus
transaction, and only calls with `rnd_max = 0` and `rnd_min >= 0` (or a
negative `rnd_max`) return without chip traffic. -/
theorem random_degenerate_range :
    ∀ (rnd_min rnd_max : Int) (resp : List Nat),
      (if rnd_max ≠ 0 then (0 : Int) else rnd_min) ≥ rnd_max →
      atecc_random rnd_min rnd_max resp =
        (false, if rnd_max ≠ 0 then (0 : Int) else rnd_min) := by
  intro rnd_min rnd_max resp h
  simp only [atecc_random]
  rw [if_pos h]

/-- Witness for C4 (amended) at `random(10, 0)`: `rnd_max = 0` is falsy, so
`rnd_min` survives and `10 >= 0` returns it with no chip call. -/
theorem random_degenerate_range_witness :
    ((if (0 : Int) ≠ 0 then (0 : Int) else 10) ≥ 0) ∧
    atecc_random 10 0 [] = (false, if (0 : Int) ≠ 0 then (0 : Int) else 10) :=
  ⟨by decide, random_degenerate_range 10 0 [] (by decide)⟩

lemma foldl_int_nonneg (l : List Nat) :
    ∀ acc : Int, 0 ≤ acc → 0 ≤ l.foldl (fun (acc : Int) (b : Nat) => acc + (b : Int)) acc := by
  induction l with
  | nil => intro acc h; simpa using h
  | cons x xs ih =>
    intro acc h
    rw [List.foldl_cons]
    exact ih _ (add_nonneg h (Int.natCast_nonneg x))

/-- C5 counterexample: `random(3, 10)` (so `rnd_min = 3 < rnd_max = 10`),
given a mocked response whose 16-byte random block is all `0x01`, returns
`16 % 10 = 6` — because `rnd_min` was forced to 0 first — and not
`16 % (10 - 3) + 3 = 5` as the claim's formula predicts. -/
theorem random_arithmetic_counterexample :
    atecc_random 3 10 (List.replicate 32 1) = (true, 6) ∧
    (16 % (10 - 3) + 3 : Int) = 5 ∧ ((true, (6 : Int)) ≠ (true, (5 : Int))) := by
  refine ⟨by decide, by decide, by decide⟩

/-- C5 (amended): writing `m` for the forced minimum (`0` when `rnd_max` is
nonzero, the caller's `rnd_min` otherwise), every call with `m < rnd_max`
issues one chip transaction for a random block, sums the first 16 bytes of
the 32-byte response payload as exact integers, reduces the sum modulo
`rnd_max - m` and adds `m`; in particular `random(0, 10)` on an all-`0x01`
block returns `16 % 10 = 6` as the claim's concrete instance states, but
for a nonzero caller-supplied `rnd_min` the modulus is `rnd_max`, not
`rnd_max - rnd_min`, and nothing is added. -/
theorem random_sum_mod_arithmetic :
    ∀ (rnd_min rnd_max : Int) (resp : List Nat),
      (if rnd_max ≠ 0 then (0 : Int) else rnd_min) < rnd_max →
      atecc_random rnd_min rnd_max resp =
        (true,
          ((resp.take 16).foldl (fun (acc : Int) (b : Nat) => acc + (b : Int)) 0) %
              (rnd_max - (if rnd_max ≠ 0 then (0 : Int) else rnd_min)) +
            (if rnd_max ≠ 0 then (0 : Int) else rnd_min)) := by
  intro rnd_min rnd_max resp h
  simp only [atecc_random]
  rw [if_neg (not_le_of_lt h),
    if_neg (not_lt_of_le (foldl_int_nonneg (resp.take 16) 0 le_rfl))]

set_option maxRecDepth 8000 in
/-- Witness for C5 (amended): `random(0, 10)` with the all-`0x01` mocked
block returns exactly `16 % 10 = 6`. -/
theorem random_sum_mod_arithmetic_witness :
    ((if (10 : Int) ≠ 0 then (0 : Int) else 0) < 10) ∧
    atecc_random 0 10 (List.replicate 32 1) = (true, 6) := by
  refine ⟨by decide, ?_⟩
  have h := random_sum_mod_arithmetic 0 10 (List.replicate 32 1) (by decide)
  exact h.trans (by decide)

/-! ## Counter command (`ATECC.counter`, atecc.py lines 239-258) -/

/-- The command packet `ATECC.counter(counter, increment_counter)` sends:
the caller's `counter` argument is overwritten by `0x00` before use (and
the subsequent `if counter == 1` rebind can therefore never fire), so
param2 is always 0; param1 is 1 when incrementing and 0 otherwise. -/
def counter_packet (counter : Int) (increment_counter : Bool) : List Nat :=
  let counter : Int := 0x00
  let counter : Int := if counter = 1 then 0x01 else counter
  if increment_counter then sendCommandPacket 0x24 0x01 counter.toNat []
  else sendCommandPacket 0x24 0x00 counter.toNat []

/-- Embedding of `ATECC.counter` in full: the packet it sends plus the value it returns,
namely the payload `_get_response(4)` extracts from the raw 7-byte bus
read `raw`. -/
def counter_cmd (counter : Int) (increment_counter : Bool) (raw : List Nat) :
    List Nat × Except String (List Nat) :=
  (counter_packet counter increment_counter, getResponse raw)

/-- C8: the caller-supplied counter id has no effect: for every id value
and increment flag the counter command goes out with param2 = 0 (only
counter 0 is reachable) and param1 = 1 when incrementing, 0 otherwise; two
calls differing only in the id argument produce identical command bytes and
identical results, and the returned value is the raw 4-byte counter payload
of the validated 7-byte response. -/
theorem counter_id_is_dead :
    ∀ (id1 id2 : Int) (inc : Bool) (raw : List Nat),
      counter_cmd id1 inc raw = counter_cmd id2 inc raw ∧
      counter_packet id1 inc = sendCommandPacket 0x24 (if inc then 0x01 else 0x00) 0 [] ∧
      (raw.length = 7 → ∀ d, getResponse raw = .ok d → d.length = 4) := by
  intro id1 id2 inc raw
  refine ⟨rfl, by cases inc <;> rfl, ?_⟩
  intro hlen d hd
  simp only [getResponse] at hd
  split at hd
  · exact absurd hd (by simp)
  · have := Except.ok.inj hd
    subst this
    simp [hlen]

/-- Witness for C8 at ids 0 and 1, incrementing, with the concrete valid
response `[4, 1, 2, 3, 4, 243, 10]` (checksum `0x0AF3` of `[4,1,2,3,4]`
stored low byte first): the returned counter value `[1, 2, 3, 4]` has
exactly 4 bytes. -/
theorem counter_id_is_dead_witness :
    counter_cmd 0 true [4, 1, 2, 3, 4, 243, 10] = counter_cmd 1 true [4, 1, 2, 3, 4, 243, 10] ∧
    ([4, 1, 2, 3, 4, 243, 10] : List Nat).length = 7 ∧
    getResponse [4, 1, 2, 3, 4, 243, 10] = .ok [1, 2, 3, 4] ∧
    ([1, 2, 3, 4] : List Nat).length = 4 :=
  ⟨(counter_id_is_dead 0 1 true [4, 1, 2, 3, 4, 243, 10]).1, by decide, rfl,
    (counter_id_is_dead 0 1 true [4, 1, 2, 3, 4, 243, 10]).2.2 (by decide) [1, 2, 3, 4] rfl⟩

/-! ## Response polling (`ATECC._get_response`, atecc.py lines 458-469)

The `for _ in range(retries)` loop around the bus read: each iteration
attempts an i2c read of `length + 3` bytes; an `OSError` is swallowed and
the loop retries, a successful read breaks out with the bytes, and any
other exception propagates out of the loop unhandled.  Falling off the end
of the loop (the `for`/`else` clause) raises
`RuntimeError("Failed to read data from chip")`.  The bus is modelled as a
map from attempt index to that attempt's outcome. -/

/-- Outcome of one i2c read attempt. -/
inductive ReadOutcome where
  | ok (bytes : List Nat)
  | osError
  | otherError (msg : String)
deriving DecidableEq

/-- Failure of the whole polling loop. -/
inductive PollFailure where
  | deviceUnresponsive
  | propagated (msg : String)
deriving DecidableEq

def isOsError : ReadOutcome → Bool
  | .osError => true
  | _ => false

/-- Number of bytes each read attempt requests from the bus:
`i2c_msg.read(self._address, length + 3)`. -/
def pollReadSize (length : Nat) : Nat := length + 3

/-- The retry loop itself: `attempt` is the index of the next read,
`fuel` the number of iterations left out of `retries`. -/
def pollLoop (read : Nat → ReadOutcome) : Nat → Nat → Except PollFailure (List Nat)
  | _, 0 => .error .deviceUnresponsive
  | attempt, fuel + 1 =>
    match read attempt with
    | .ok bytes => .ok bytes
    | .osError => pollLoop read (attempt + 1) fuel
    | .otherError msg => .error (.propagated msg)

/-- The polling part of `_get_response` with the default `retries=20`
(every call site uses the default). -/
def get_response_poll (read : Nat → ReadOutcome) : Except PollFailure (List Nat) :=
  pollLoop read 0 20

lemma pollLoop_eq (read : Nat → ReadOutcome) :
    ∀ (fuel attempt : Nat),
      pollLoop read attempt fuel =
        match (List.range' attempt fuel).find? (fun k => !(isOsError (read k))) with
        | none => .error .deviceUnresponsive
        | some k =>
          match read k with
          | .ok bytes => .ok bytes
          | .osError => .error .deviceUnresponsive
          | .otherError msg => .error (.propagated msg) := by
  intro fuel
  induction fuel with
  | zero => intro attempt; rfl
  | succ n ih =>
    intro attempt
    rw [List.range'_succ, List.find?_cons]
    cases hr : read attempt with
    | ok bytes => simp [pollLoop, hr, isOsError]
    | osError =>
      simp only [pollLoop, hr, isOsError, Bool.not_true]
      exact ih (attempt + 1)
    | otherError msg => simp [pollLoop, hr, isOsError]

/-- C9: while polling, `_get_response` attempts bus reads of
`expected_response_length + 3` bytes for up to 20 attempts, and its result
is decided by the first attempt whose outcome is not an `OSError`: a
success within the first 20 attempts returns its bytes, a non-`OSError`
failure propagates immediately, and if all 20 attempts raise `OSError` the
loop exhausts and a device-unresponsive error
(`RuntimeError("Failed to read data from chip")`) is raised. -/
theorem get_response_polling :
    ∀ (read : Nat → ReadOutcome) (length : Nat),
      pollReadSize length = length + 3 ∧
      get_response_poll read =
        match (List.range' 0 20).find? (fun k => !(isOsError (read k))) with
        | none => .error .deviceUnresponsive
        | some k =>
          match read k with
          | .ok bytes => .ok bytes
          | .osError => .error .deviceUnresponsive
          | .otherError msg => .error (.propagated msg) :=
  fun read _ => ⟨rfl, pollLoop_eq read 20 0⟩

/-! ## Configuration writes (`ATECC.write_config` / `ATECC._write`,
atecc.py lines 388-408) -/

/-- The sequence of `_write(0, i // 4, data[i:i+4])` calls issued by
`write_config(data)`, as (word address, 4-byte buffer) pairs: the loop
runs `i` over `range(16, 128, 4)` and `continue`s at `i == 84`.  (Each
such call passes the 4-byte buffer through `_send_command(0x12, 0, i//4,
buffer)`; the zone stays 0 because the buffer length is 4, not 32.) -/
def write_config (data : List Nat) : List (Nat × List Nat) :=
  ((List.range' 16 28 4).filter (fun i => i ≠ 84)).map
    (fun i => (i / 4, (data.drop i).take 4))

/-- C7: `write_config` on a config buffer issues exactly 27 four-byte word
writes, one for each byte offset 16, 20, ..., 124 except the reserved
offset 84 — word addresses 4 through 31 skipping 21 — each carrying
`data[i:i+4]` at word address `i // 4`; the first 16 bytes are never read
or written and no other writes are issued. -/
theorem write_config_word_writes :
    ∀ data : List Nat,
      write_config data =
        [(4, (data.drop 16).take 4), (5, (data.drop 20).take 4), (6, (data.drop 24).take 4),
         (7, (data.drop 28).take 4), (8, (data.drop 32).take 4), (9, (data.drop 36).take 4),
         (10, (data.drop 40).take 4), (11, (data.drop 44).take 4), (12, (data.drop 48).take 4),
         (13, (data.drop 52).take 4), (14, (data.drop 56).take 4), (15, (data.drop 60).take 4),
         (16, (data.drop 64).take 4), (17, (data.drop 68).take 4), (18, (data.drop 72).take 4),
         (19, (data.drop 76).take 4), (20, (data.drop 80).take 4), (22, (data.drop 88).take 4),
         (23, (data.drop 92).take 4), (24, (data.drop 96).take 4), (25, (data.drop 100).take 4),
         (26, (data.drop 104).take 4), (27, (data.drop 108).take 4), (28, (data.drop 112).take 4),
         (29, (data.drop 116).take 4), (30, (data.drop 120).take 4), (31, (data.drop 124).take 4)]
      ∧ (write_config data).length = 27 :=
  fun _ => ⟨rfl, rfl⟩

/-! ## SHA digest finalization (`ATECC.sha_digest`, atecc.py lines 326-345) -/

/-- The four kinds of value a caller can pass as `sha_digest`'s `message`:
`None`, a `bytes` object, a `bytearray`, or an `int`. -/
inductive ShaMsg where
  | pyNone
  | pyBytes (b : List Nat)
  | pyByteArray (b : List Nat)
  | pyInt (n : Int)
deriving DecidableEq

/-- Models `hasattr(message, "append")`: of the four kinds, only `bytearray` has
an `append` method. -/
def hasAppend : ShaMsg → Bool
  | .pyByteArray _ => true
  | _ => false

/-- Models `struct.pack("B", n)` for a Python int: one byte when
`0 <= n <= 255`, otherwise `struct.error`. -/
def packB (n : Int) : Except String (List Nat) :=
  if 0 ≤ n ∧ n < 256 then .ok [n.toNat]
  else .error "struct.error: ubyte format requires 0 <= number <= 255"

/-- Models `struct.pack("B", message)` as `sha_digest` applies it to a non-`None`
message lacking an `append` method: an int is packed; a bytes object is
not an integer and raises `struct.error`. -/
def packBMessage : ShaMsg → Except String (List Nat)
  | .pyInt n => packB n
  | _ => .error "struct.error: required argument is not an integer"

/-- The conversion step
`if not hasattr(message, "append") and message is not None: message = pack("B", message)`. -/
def shaDigestConverted (message : ShaMsg) : Except String ShaMsg :=
  if hasAppend message = false ∧ message ≠ .pyNone then
    (packBMessage message).map .pyBytes
  else
    .ok message

/-- Python truthiness of the converted message together with its byte
content: `None` is falsy, a bytes/bytearray is falsy iff empty.  (An int
can no longer occur here: the conversion step replaced it by its packed
bytes.) -/
def shaMsgTruthyData : ShaMsg → Option (List Nat)
  | .pyNone => Option.none
  | .pyBytes b => if b = [] then Option.none else Option.some b
  | .pyByteArray b => if b = [] then Option.none else Option.some b
  | .pyInt _ => Option.none

/-- The command packet `sha_digest(message)` transmits — or the exception
raised before any transmission: `_send_command(OP_SHA, 0x02, len(message),
message)` when the converted message is truthy, `_send_command(OP_SHA,
0x02)` (param2 and data at their defaults) otherwise. -/
def shaDigestPacket (message : ShaMsg) : Except String (List Nat) :=
  match shaDigestConverted message with
  | .error e => .error e
  | .ok m =>
    match shaMsgTruthyData m with
    | Option.some d => .ok (sendCommandPacket 0x47 0x02 d.length d)
    | Option.none => .ok (sendCommandPacket 0x47 0x02 0 [])

/-- Embedding of `sha_digest(message)` end to end: conversion and transmission, then
`_get_response(32)` on the raw 35-byte bus read `raw`, then the
`assert len(digest) == 32` guard. -/
def shaDigest (message : ShaMsg) (raw : List Nat) : Except String (List Nat) :=
  match shaDigestPacket message with
  | .error e => .error e
  | .ok _ =>
    match getResponse raw with
    | .error e => .error e
    | .ok digest =>
      if digest.length = 32 then .ok digest
      else .error "SHA response length does not match expected length."

/-- C6: `sha_digest` either returns exactly 32 bytes or raises (a CRC
mismatch, a conversion error, or the length-assertion failure); it never
silently returns a digest of any other length. -/
theorem sha_digest_length :
    ∀ (message : ShaMsg) (raw : List Nat) (d : List Nat),
      shaDigest message raw = .ok d → d.length = 32 := by
  intro message raw d
  unfold shaDigest
  cases shaDigestPacket message with
  | error e => intro h; exact absurd h (by simp)
  | ok pkt =>
    cases getResponse raw with
    | error e => intro h; exact absurd h (by simp)
    | ok digest =>
      dsimp only
      by_cases hl : digest.length = 32
      · rw [if_pos hl]
        intro h
        injection h with h2
        subst h2
        exact hl
      · rw [if_neg hl]
        intro h
        exact absurd h (by simp)

/-- A mocked valid 35-byte SHA response: length byte `0x23`, 32 zero
payload bytes, checksum `0xACB3` of the first 33 bytes stored low byte
first. -/
def shaRawExample : List Nat :=
  [0x23, 0, 0, 0, 0, 0, 0, 0, 0, 0, 0, 0, 0, 0, 0, 0, 0,
   0, 0, 0, 0, 0, 0, 0, 0, 0, 0, 0, 0, 0, 0, 0, 0, 179, 172]

/-- The 32-byte payload of `shaRawExample`. -/
def shaPayloadExample : List Nat :=
  [0, 0, 0, 0, 0, 0, 0, 0, 0, 0, 0, 0, 0, 0, 0, 0,
   0, 0, 0, 0, 0, 0, 0, 0, 0, 0, 0, 0, 0, 0, 0, 0]

/-- Witness for C6: the mocked valid response makes `sha_digest(None)`
return exactly its 32-byte payload. -/
theorem sha_digest_length_witness :
    shaDigest .pyNone shaRawExample = .ok shaPayloadExample ∧
    shaPayloadExample.length = 32 :=
  ⟨rfl, sha_digest_length .pyNone shaRawExample shaPayloadExample rfl⟩

/-- C10: at the public interface `sha_digest` accepts `None` (no final
chunk), a nonempty `bytearray` (sent as the final chunk — it has an
`append` method), or an int in `0..255` (packed into a single-byte chunk);
but every non-empty `bytes` object, which has no `append` method, is
passed to `pack("B", ...)` as if it were an integer and raises
`struct.error` before any command is transmitted. -/
theorem sha_digest_message_handling :
    ∀ (b m : List Nat) (n : Int),
      (b ≠ [] → shaDigestPacket (.pyBytes b)
        = .error "struct.error: required argument is not an integer") ∧
      shaDigestPacket .pyNone = .ok (sendCommandPacket 0x47 0x02 0 []) ∧
      (m ≠ [] → shaDigestPacket (.pyByteArray m)
        = .ok (sendCommandPacket 0x47 0x02 m.length m)) ∧
      (0 ≤ n → n < 256 → shaDigestPacket (.pyInt n)
        = .ok (sendCommandPacket 0x47 0x02 1 [n.toNat])) := by
  intro b m n
  refine ⟨fun _ => rfl, rfl, ?_, ?_⟩
  · intro hm
    simp [shaDigestPacket, shaDigestConverted, hasAppend, shaMsgTruthyData, hm]
  · intro h0 h256
    simp [shaDigestPacket, shaDigestConverted, hasAppend, packBMessage, packB,
      shaMsgTruthyData, Except.map, h0, h256]

/-- Witness for C10 at `bytes = b"\x01"`, `bytearray([2])`, `int 65`. -/
theorem sha_digest_message_handling_witness :
    ([1] : List Nat) ≠ [] ∧
    shaDigestPacket (.pyBytes [1])
      = .error "struct.error: required argument is not an integer" ∧
    ([2] : List Nat) ≠ [] ∧
    shaDigestPacket (.pyByteArray [2])
      = .ok (sendCommandPacket 0x47 0x02 [2].length [2]) ∧
    (0 ≤ (65 : Int)) ∧ ((65 : Int) < 256) ∧
    shaDigestPacket (.pyInt 65) = .ok (sendCommandPacket 0x47 0x02 1 [(65 : Int).toNat]) :=
  ⟨by decide, (sha_digest_message_handling [1] [2] 65).1 (by decide), by decide,
    (sha_digest_message_handling [1] [2] 65).2.2.1 (by decide), by decide, by decide,
    (sha_digest_message_handling [1] [2] 65).2.2.2 (by decide) (by decide)⟩

end PyAtecc
